import Mathlib

/-!
Verification of the ReadyCatholic news aggregator
(`catholic_news_aggregator.py`).

The aggregator iterates a fixed configured list of named RSS sources,
fetches each feed (which may fail or be empty), normalizes entries into
headlines, classifies each headline into exactly one of seven categories
by a first-match-wins rule chain, and finally truncates every category
list to its cap (5 for breaking, 15 otherwise).  The renderer turns the
resulting category set plus a formatted date string into a single HTML
document.

The embedding below translates the Python source directly.  The external
feed-parsing collaborator (`feedparser.parse`) is modelled by passing,
for each configured source, the outcome of its fetch: either a failure
(an exception during fetch/parse) or a list of entries.  Each entry has
optional `title` and `link` fields, as in the Python `entry.get(...)`
calls.
-/

/-- A feed entry as produced by the feed-parsing collaborator: optional
`title` and `link` string fields (`entry.get('title', ...)`,
`entry.get('link', ...)`). -/
structure Entry where
  title : Option String
  link : Option String
deriving Repr, DecidableEq

/-- Outcome of `feedparser.parse(feed_url)` for one source: either the
fetch/parse raised an exception, or it produced a list of entries
(possibly empty). -/
inductive FetchResult where
  | failure : FetchResult
  | success (entries : List Entry) : FetchResult
deriving Repr, DecidableEq

/-- A normalized headline record: `{'title': ..., 'link': ..., 'source': ...}`. -/
structure Headline where
  title : String
  link : String
  source : String
deriving Repr, DecidableEq

/-- The seven category keys of the `headlines` dictionary. -/
inductive Category where
  | breaking | vatican | america | faith | culture | world | education
deriving Repr, DecidableEq

/-- The `headlines` dictionary: one ordered list of headlines per category. -/
structure CategorySet where
  breaking : List Headline
  vatican : List Headline
  america : List Headline
  faith : List Headline
  culture : List Headline
  world : List Headline
  education : List Headline
deriving Repr, DecidableEq

/-- Look a category's list up in a `CategorySet` (dictionary access
`headlines[category]`). -/
def catGet (st : CategorySet) : Category → List Headline
  | .breaking => st.breaking
  | .vatican => st.vatican
  | .america => st.america
  | .faith => st.faith
  | .culture => st.culture
  | .world => st.world
  | .education => st.education

/-- The initial `headlines` dictionary: every category maps to `[]`. -/
def initialCats : CategorySet :=
  { breaking := [], vatican := [], america := [], faith := [],
    culture := [], world := [], education := [] }

/-- `CATHOLIC_NEWS_SOURCES`: the configured (name, url) pairs, in
declaration order (Python dicts preserve insertion order). -/
def CATHOLIC_NEWS_SOURCES : List (String × String) :=
  [("Vatican News", "https://www.vaticannews.va/en.rss.xml"),
   ("Catholic News Agency", "https://www.catholicnewsagency.com/feed"),
   ("National Catholic Register", "https://www.ncregister.com/feed"),
   ("EWTN News", "https://www.ewtnnews.com/feed"),
   ("Aleteia", "https://aleteia.org/feed/"),
   ("Catholic World Report", "https://www.catholicworldreport.com/feed/"),
   ("Crux", "https://cruxnow.com/feed/"),
   ("LifeSiteNews", "https://www.lifesitenews.com/rss/global"),
   ("Big Pulpit", "https://bigpulpit.com/feed/"),
   ("Catholic Culture", "https://www.catholicculture.org/feeds/news_rss.cfm"),
   ("Catholic Daily Reflections", "https://catholic-daily-reflections.com/feed/"),
   ("Catholic Stand", "https://catholicstand.com/feed/"),
   ("Catholic Education", "https://www.catholiceducation.org/en/component/obrss/catholic-education-resource-center.feed"),
   ("ChurchPOP", "https://www.churchpop.com/feed/"),
   ("New Advent", "https://www.newadvent.org/index.html"),
   ("OSV News", "https://www.osvnews.com/feed/"),
   ("Spirit Daily", "https://spiritdaily.com/feed/"),
   ("TFP.org", "https://www.tfp.org/feed/"),
   ("The Catholic Herald", "https://thecatholicherald.com/feed/"),
   ("The Pillar", "https://www.pillarcatholic.com/feed"),
   ("Zenit", "https://zenit.org/feed/")]

/-- The configured source names in declaration order. -/
def configuredNames : List String := CATHOLIC_NEWS_SOURCES.map Prod.fst

/-- `strStarts pat s` holds when `pat` is an initial segment of `s`. -/
def strStarts : List Char → List Char → Bool
  | [], _ => true
  | _ :: _, [] => false
  | p :: ps, c :: cs => (p == c) && strStarts ps cs

/-- `hasSub pat s` holds when `pat` occurs contiguously inside `s`. -/
def hasSub : List Char → List Char → Bool
  | pat, [] => pat.isEmpty
  | pat, c :: cs => strStarts pat (c :: cs) || hasSub pat cs

/-- Python's substring test `pat in s`. -/
def containsSub (s pat : String) : Bool := hasSub pat.toList s.toList

/-- One character of Python's `html.escape` (with quoting):
`&`, `<`, `>`, the double quote and the apostrophe are replaced by their
HTML entities. -/
def escapeChar (c : Char) : String :=
  if c = Char.ofNat 38 then "&amp;"
  else if c = Char.ofNat 60 then "&lt;"
  else if c = Char.ofNat 62 then "&gt;"
  else if c = Char.ofNat 34 then "&quot;"
  else if c = Char.ofNat 39 then "&#x27;"
  else String.singleton c

/-- Python's `html.escape(s)`: escape `&`, `<`, `>` and both quote
characters. -/
def escape (s : String) : String := String.join (s.toList.map escapeChar)

/-- The source names eligible for the `breaking` category
(`['Vatican News', 'The Pillar', 'OSV News']`). -/
def breakingSources : List String := ["Vatican News", "The Pillar", "OSV News"]

/-- Source names of the `america` rule. -/
def americaSources : List String :=
  ["National Catholic Register", "OSV News", "The Pillar"]

/-- Source names of the `faith` rule. -/
def faithSources : List String :=
  ["Catholic Daily Reflections", "Catholic Stand", "Spirit Daily"]

/-- Source names of the `culture` rule. -/
def cultureSources : List String := ["LifeSiteNews", "TFP.org", "ChurchPOP"]

/-- Source names of the `world` rule. -/
def worldSources : List String := ["Crux", "Zenit", "The Catholic Herald"]

/-- Condition of the first branch:
`i == 0 and source_name in ['Vatican News', 'The Pillar', 'OSV News']`. -/
def ruleBreaking (sourceName : String) (i : Nat) : Bool :=
  (i == 0) && breakingSources.contains sourceName

/-- Condition of the `vatican` branch:
`'pope' in title_lower or 'vatican' in title_lower or source_name == 'Vatican News'`. -/
def ruleVatican (sourceName titleLower : String) : Bool :=
  containsSub titleLower "pope" || containsSub titleLower "vatican" ||
    (sourceName == "Vatican News")

/-- Condition of the `america` branch. -/
def ruleAmerica (sourceName titleLower : String) : Bool :=
  americaSources.contains sourceName || containsSub titleLower "us"

/-- Condition of the `faith` branch. -/
def ruleFaith (sourceName titleLower : String) : Bool :=
  faithSources.contains sourceName || containsSub titleLower "faith"

/-- Condition of the `culture` branch. -/
def ruleCulture (sourceName titleLower : String) : Bool :=
  cultureSources.contains sourceName || containsSub titleLower "life" ||
    containsSub titleLower "culture"

/-- Condition of the `world` branch. -/
def ruleWorld (sourceName titleLower : String) : Bool :=
  worldSources.contains sourceName || containsSub titleLower "world"

/-- Condition of the `education` branch. -/
def ruleEducation (sourceName titleLower : String) : Bool :=
  (sourceName == "Catholic Education") || containsSub titleLower "school" ||
    containsSub titleLower "education"

/-- The if/elif/else classification chain of `fetch_headlines`, evaluated
top to bottom, first matching rule wins; the `else` arm is `faith`. -/
def classify (sourceName titleLower : String) (i : Nat) : Category :=
  if ruleBreaking sourceName i then .breaking
  else if ruleVatican sourceName titleLower then .vatican
  else if ruleAmerica sourceName titleLower then .america
  else if ruleFaith sourceName titleLower then .faith
  else if ruleCulture sourceName titleLower then .culture
  else if ruleWorld sourceName titleLower then .world
  else if ruleEducation sourceName titleLower then .education
  else .faith

/-- Build the headline record for one entry:
`title` is the HTML-escaped `entry.get('title', 'No title')`,
`link` is `entry.get('link', '#')`, `source` is the source name. -/
def mkHeadline (sourceName : String) (e : Entry) : Headline :=
  { title := escape (e.title.getD "No title"),
    link := e.link.getD "#",
    source := sourceName }

/-- Python's `str.lower()`: lowercase the string character by
character. -/
def lowerStr (s : String) : String := String.mk (s.toList.map Char.toLower)

/-- `title_lower = entry.get('title', '').lower()` — note the default is
the empty string here, not `'No title'`. -/
def titleLowerOf (e : Entry) : String := lowerStr (e.title.getD "")

/-- Append a headline at the end of one category's list, leaving the
other categories unchanged (`headlines[category].append(headline)`). -/
def appendTo (st : CategorySet) (c : Category) (h : Headline) : CategorySet :=
  match c with
  | .breaking => { st with breaking := st.breaking ++ [h] }
  | .vatican => { st with vatican := st.vatican ++ [h] }
  | .america => { st with america := st.america ++ [h] }
  | .faith => { st with faith := st.faith ++ [h] }
  | .culture => { st with culture := st.culture ++ [h] }
  | .world => { st with world := st.world ++ [h] }
  | .education => { st with education := st.education ++ [h] }

/-- The body of the `for i, entry in enumerate(...)` loop for one entry
at index `i`: build the headline, classify it, append it. -/
def processEntry (st : CategorySet) (sourceName : String) (i : Nat)
    (e : Entry) : CategorySet :=
  appendTo st (classify sourceName (titleLowerOf e) i) (mkHeadline sourceName e)

/-- Run the entry loop over a list of entries starting at index `i`. -/
def processEntries (sourceName : String) : CategorySet → Nat → List Entry → CategorySet
  | st, _, [] => st
  | st, i, e :: es => processEntries sourceName (processEntry st sourceName i e) (i + 1) es

/-- Process one source inside the `try`/`except`: a fetch failure or an
empty entry list contributes nothing; otherwise the loop runs over
`feed.entries[:max_per_source]` with indices starting at 0. -/
def processSource (st : CategorySet) (max_per_source : Nat)
    (src : String × FetchResult) : CategorySet :=
  match src.2 with
  | .failure => st
  | .success entries =>
    if entries.isEmpty then st
    else processEntries src.1 st 0 (entries.take max_per_source)

/-- The source loop of `fetch_headlines`, before the final truncation:
fold `processSource` over the sources in configured order. -/
def collectRaw (sources : List (String × FetchResult)) (max_per_source : Nat) :
    CategorySet :=
  sources.foldl (fun st s => processSource st max_per_source s) initialCats

/-- The per-category cap applied after collection:
`limit = 15 if category != 'breaking' else 5`. -/
def cap : Category → Nat
  | .breaking => 5
  | _ => 15

/-- `fetch_headlines`: collect all headlines, then truncate every
category list to its cap (`headlines[category][:limit]`).  The external
fetches are supplied as the `sources` argument: for each configured
source in order, the outcome of parsing its feed. -/
def fetch_headlines (sources : List (String × FetchResult))
    (max_per_source : Nat) : CategorySet :=
  let r := collectRaw sources max_per_source
  { breaking := r.breaking.take 5,
    vatican := r.vatican.take 15,
    america := r.america.take 15,
    faith := r.faith.take 15,
    culture := r.culture.take 15,
    world := r.world.take 15,
    education := r.education.take 15 }

/-- Total number of headlines held across all seven categories. -/
def totalLen (st : CategorySet) : Nat :=
  st.breaking.length + st.vatican.length + st.america.length +
    st.faith.length + st.culture.length + st.world.length +
    st.education.length

/-- Number of headlines one source contributes: zero on fetch failure or
an empty feed, otherwise the length of the taken front slice. -/
def perSourceCount (max_per_source : Nat) (src : String × FetchResult) : Nat :=
  match src.2 with
  | .failure => 0
  | .success entries =>
    if entries.isEmpty then 0 else min entries.length max_per_source

/-- Total number of headlines produced over a run. -/
def producedCount (sources : List (String × FetchResult))
    (max_per_source : Nat) : Nat :=
  (sources.map (perSourceCount max_per_source)).sum

/-- `enumerate(l)` starting at index `i`. -/
def enumerate {α : Type} (i : Nat) : List α → List (Nat × α)
  | [] => []
  | e :: es => (i, e) :: enumerate (i + 1) es

/-- Number of breaking-eligible source names in a list of names. -/
def eligibleCount (names : List String) : Nat :=
  (names.filter (fun n => breakingSources.contains n)).length

/-- Static template text before the interpolated date string. -/
def tpl0 : String :=
  "<!DOCTYPE html>\n<html lang=\"en\">\n<head>\n    <meta charset=\"UTF-8\">\n" ++
  "    <meta name=\"viewport\" content=\"width=device-width, initial-scale=1.0\">\n" ++
  "    <title>READY CATHOLIC</title>\n    <style>\n" ++
  "        * \x7b margin: 0; padding: 0; box-sizing: border-box; \x7d\n" ++
  "        body \x7b font-family: \x27Courier New\x27, monospace; background-color: #f5f5f5; color: #333; line-height: 1.4; font-size: 13px; \x7d\n" ++
  "        .container \x7b max-width: 1200px; margin: 0 auto; background-color: #ffffff; padding: 15px; border: 1px solid #ddd; \x7d\n" ++
  "        .header \x7b text-align: center; border-bottom: 3px solid #000; padding-bottom: 10px; margin-bottom: 15px; \x7d\n" ++
  "        .header h1 \x7b font-size: 38px; font-weight: bold; font-style: italic; letter-spacing: -1px; margin-bottom: 5px; text-transform: uppercase; \x7d\n" ++
  "        .header .tagline \x7b font-size: 12px; font-weight: bold; color: #000; margin-bottom: 5px; \x7d\n" ++
  "        .header .timestamp \x7b font-size: 12px; color: #444; font-weight: bold; text-transform: uppercase; margin-top: 5px; \x7d\n" ++
  "        .main-content \x7b display: grid; grid-template-columns: 1fr 1fr 1fr; gap: 20px; \x7d\n" ++
  "        .column \x7b display: flex; flex-direction: column; gap: 15px; \x7d\n" ++
  "        .news-item \x7b border-bottom: 1px solid #eee; padding-bottom: 8px; margin-bottom: 8px; \x7d\n" ++
  "        .news-item a \x7b color: #0000EE; text-decoration: none; font-weight: bold; font-size: 14px; display: block; \x7d\n" ++
  "        .news-item a:hover \x7b text-decoration: underline; \x7d\n" ++
  "        .news-item .source \x7b font-size: 10px; color: #888; text-transform: uppercase; margin-top: 2px; \x7d\n" ++
  "        .featured-section \x7b background-color: #fff; border: 2px solid #000; padding: 15px; margin-bottom: 20px; \x7d\n" ++
  "        .featured-section h2 \x7b font-size: 16px; font-weight: bold; margin-bottom: 10px; border-bottom: 1px solid #000; \x7d\n" ++
  "        .featured-item \x7b margin-bottom: 12px; \x7d\n" ++
  "        .featured-item a \x7b font-size: 18px; color: #000; font-weight: 900; text-decoration: none; line-height: 1.1; \x7d\n" ++
  "        .featured-item a:hover \x7b background: #000; color: #fff; \x7d\n" ++
  "        .section-header \x7b font-size: 14px; font-weight: bold; background: #000; color: #fff; padding: 4px 8px; margin-bottom: 10px; \x7d\n" ++
  "        .divider \x7b border-top: 2px solid #000; margin: 20px 0; \x7d\n" ++
  "        .footer \x7b text-align: center; padding: 20px; font-size: 11px; border-top: 1px solid #ddd; \x7d\n" ++
  "        @media (max-width: 768px) \x7b .main-content \x7b grid-template-columns: 1fr; \x7d \x7d\n" ++
  "    </style>\n</head>\n<body>\n    <div class=\"container\">\n" ++
  "        <div class=\"header\">\n            <h1>READY CATHOLIC</h1>\n" ++
  "            <div class=\"tagline\">DAILY CATHOLIC NEWS & UPDATES</div>\n" ++
  "            <div class=\"timestamp\">"

/-- Static template text between the date string and the featured block. -/
def tpl1 : String :=
  "</div>\n        </div>\n\n        <div class=\"featured-section\">\n" ++
  "            <h2>⚡ TOP STORIES</h2>\n            "

/-- Static template text before the vatican section items. -/
def tpl2 : String :=
  "\n        </div>\n\n        <div class=\"main-content\">\n" ++
  "            <div class=\"column\">\n" ++
  "                <div class=\"section-header\">VATICAN & POPE</div>\n                "

/-- Static template text before the america section items. -/
def tpl3 : String :=
  "\n                \n" ++
  "                <div class=\"section-header\">CHURCH IN AMERICA</div>\n                "

/-- Static template text before the faith section items. -/
def tpl4 : String :=
  "\n            </div>\n\n            <div class=\"column\">\n" ++
  "                <div class=\"section-header\">FAITH & SPIRITUALITY</div>\n                "

/-- Static template text before the culture section items. -/
def tpl5 : String :=
  "\n                \n                <div class=\"section-header\">CULTURE & LIFE</div>\n" ++
  "                "

/-- Static template text before the world section items. -/
def tpl6 : String :=
  "\n            </div>\n\n            <div class=\"column\">\n" ++
  "                <div class=\"section-header\">WORLD CHURCH</div>\n                "

/-- Static template text before the education section items. -/
def tpl7 : String :=
  "\n                \n" ++
  "                <div class=\"section-header\">EDUCATION & YOUTH</div>\n                "

/-- Static template text after the education section items. -/
def tpl8 : String :=
  "\n            </div>\n        </div>\n\n        <div class=\"divider\"></div>\n\n" ++
  "        <div class=\"footer\">\n            <p><strong>READY CATHOLIC</strong></p>\n" ++
  "            <p>Catholic news aggregator.</p>\n" ++
  "            <p>© 2026 Ready Catholic. All rights reserved.</p>\n        </div>\n" ++
  "    </div>\n</body>\n</html>\n"

/-- Piece of the news-item snippet before the link. -/
def itemP0 : String := "\n                <div class=\"news-item\">\n                    <a href=\""
/-- Piece of the news-item snippet between link and title. -/
def itemP1 : String := "\" target=\"_blank\">"
/-- Piece of the news-item snippet between title and source. -/
def itemP2 : String := "</a>\n                    <div class=\"source\">"
/-- Piece of the news-item snippet after the source. -/
def itemP3 : String := "</div>\n                </div>\n            "
/-- Piece of the featured-item snippet before the link. -/
def featP0 : String := "\n                <div class=\"featured-item\">\n                    <a href=\""
/-- Piece of the featured-item snippet between link and title. -/
def featP1 : String := "\" target=\"_blank\">"
/-- Piece of the featured-item snippet between title and source. -/
def featP2 : String := "</a>\n                    <div class=\"source\">"
/-- Piece of the featured-item snippet after the source. -/
def featP3 : String := "</div>\n                </div>\n            "

/-- `format_items`: accumulate one news-item snippet per headline
(`html += f-string` in a loop). -/
def format_items (items : List Headline) : String :=
  items.foldl
    (fun html item =>
      html ++ itemP0 ++ item.link ++ itemP1 ++ item.title ++ itemP2 ++
        item.source ++ itemP3) ""

/-- `format_featured`: accumulate one featured-item snippet per headline. -/
def format_featured (items : List Headline) : String :=
  items.foldl
    (fun html item =>
      html ++ featP0 ++ item.link ++ featP1 ++ item.title ++ featP2 ++
        item.source ++ featP3) ""

/-- `generate_html`: assemble the full document from the category set and
the formatted date string.  The Python function reads the clock itself
(`datetime.now(ZoneInfo("America/New_York"))`) and formats it; here the
formatted date string derived from that instant is the explicit second
argument, which is the only place the current time enters the output. -/
def generate_html (headlines : CategorySet) (date_string : String) : String :=
  tpl0 ++ date_string ++ tpl1 ++ format_featured headlines.breaking ++
    tpl2 ++ format_items headlines.vatican ++
    tpl3 ++ format_items headlines.america ++
    tpl4 ++ format_items headlines.faith ++
    tpl5 ++ format_items headlines.culture ++
    tpl6 ++ format_items headlines.world ++
    tpl7 ++ format_items headlines.education ++ tpl8

/-- Everything of the generated document that follows the date string: a
function of the category set alone, independent of the instant. -/
def htmlAfterDate (headlines : CategorySet) : String :=
  tpl1 ++ format_featured headlines.breaking ++
    tpl2 ++ format_items headlines.vatican ++
    tpl3 ++ format_items headlines.america ++
    tpl4 ++ format_items headlines.faith ++
    tpl5 ++ format_items headlines.culture ++
    tpl6 ++ format_items headlines.world ++
    tpl7 ++ format_items headlines.education ++ tpl8

/-! ## Helper lemmas -/

/-- Appending to category `c0` extends exactly the list of `c0` and leaves
every other category's list unchanged. -/
theorem catGet_appendTo (st : CategorySet) (c0 c : Category) (h : Headline) :
    catGet (appendTo st c0 h) c =
      catGet st c ++ (if c0 = c then [h] else []) := by
  cases c0 <;> cases c <;> simp [appendTo, catGet]

/-- Appending one headline grows the total size by one. -/
theorem totalLen_appendTo (st : CategorySet) (c : Category) (h : Headline) :
    totalLen (appendTo st c h) = totalLen st + 1 := by
  cases c <;> simp [appendTo, totalLen] <;> omega

/-- When the breaking condition fails, the classification chain never
returns `breaking`. -/
theorem classify_ne_breaking {name tl : String} {i : Nat}
    (hb : ruleBreaking name i = false) :
    classify name tl i ≠ Category.breaking := by
  unfold classify
  simp only [hb, Bool.false_eq_true, if_false]
  split
  · simp
  split
  · simp
  split
  · simp
  split
  · simp
  split
  · simp
  split <;> simp

/-- Appending to a non-breaking category leaves the breaking list alone. -/
theorem breaking_appendTo_of_ne {st : CategorySet} {c : Category}
    {h : Headline} (hc : c ≠ Category.breaking) :
    (appendTo st c h).breaking = st.breaking := by
  cases c
  · exact absurd rfl hc
  all_goals rfl

/-- From a positive index on, the entry loop never touches the breaking
list: only index 0 can satisfy the breaking rule. -/
theorem processEntries_breaking_of_pos (name : String) (es : List Entry) :
    ∀ (st : CategorySet) (i : Nat), i ≠ 0 →
      (processEntries name st i es).breaking = st.breaking := by
  induction es with
  | nil => intro st i _; rfl
  | cons e es ih =>
    intro st i hi
    show (processEntries name (processEntry st name i e) (i + 1) es).breaking = _
    rw [ih _ (i + 1) (Nat.succ_ne_zero i)]
    refine breaking_appendTo_of_ne (classify_ne_breaking ?_)
    have : (i == 0) = false := by simpa using hi
    simp [ruleBreaking, this]

/-- Content of every category after the entry loop: the previous content
followed by the headlines of exactly those enumerated entries the chain
classifies into that category, in entry order. -/
theorem catGet_processEntries (name : String) (es : List Entry) :
    ∀ (st : CategorySet) (i : Nat) (c : Category),
      catGet (processEntries name st i es) c =
        catGet st c ++
          ((enumerate i es).filter
              (fun p => classify name (titleLowerOf p.2) p.1 == c)).map
            (fun p => mkHeadline name p.2) := by
  induction es with
  | nil => intro st i c; simp [processEntries, enumerate]
  | cons e es ih =>
    intro st i c
    show catGet (processEntries name (processEntry st name i e) (i + 1) es) c = _
    rw [ih]
    simp only [processEntry, catGet_appendTo, enumerate, List.filter_cons]
    by_cases hc : classify name (titleLowerOf e) i = c
    · simp [hc, List.append_assoc]
    · simp [hc]

/-- The entry loop adds exactly one headline per processed entry. -/
theorem totalLen_processEntries (name : String) (es : List Entry) :
    ∀ (st : CategorySet) (i : Nat),
      totalLen (processEntries name st i es) = totalLen st + es.length := by
  induction es with
  | nil => intro st i; rfl
  | cons e es ih =>
    intro st i
    show totalLen (processEntries name (processEntry st name i e) (i + 1) es) = _
    rw [ih, processEntry, totalLen_appendTo]
    simp [Nat.add_comm, Nat.add_assoc, Nat.add_left_comm]

/-- One source adds exactly its contribution count to the total size. -/
theorem totalLen_processSource (st : CategorySet) (limit : Nat)
    (src : String × FetchResult) :
    totalLen (processSource st limit src) =
      totalLen st + perSourceCount limit src := by
  obtain ⟨name, res⟩ := src
  cases res with
  | failure => simp [processSource, perSourceCount]
  | success es =>
    by_cases he : es.isEmpty
    · simp [processSource, perSourceCount, he]
    · simp [processSource, perSourceCount, he, totalLen_processEntries,
        List.length_take, Nat.min_comm]

/-- Folding the source loop adds exactly the produced count. -/
theorem totalLen_collect (limit : Nat) :
    ∀ (sources : List (String × FetchResult)) (st : CategorySet),
      totalLen (sources.foldl (fun st s => processSource st limit s) st) =
        totalLen st + producedCount sources limit := by
  intro sources
  induction sources with
  | nil => intro st; simp [producedCount]
  | cons s ss ih =>
    intro st
    simp only [List.foldl_cons, producedCount, List.map_cons, List.sum_cons]
    rw [ih, totalLen_processSource]
    simp [producedCount]
    omega

/-- With a per-source limit of 0 a source never changes the state. -/
theorem processSource_zero (st : CategorySet) (src : String × FetchResult) :
    processSource st 0 src = st := by
  obtain ⟨name, res⟩ := src
  cases res with
  | failure => rfl
  | success es =>
    by_cases he : es.isEmpty <;>
      simp [processSource, he, List.take_zero, processEntries]

/-- Classification of an entry whose `title` field is absent: the chain
behaves on the empty lowered title exactly as it behaves on the lowered
default display title `"no title"`, because no keyword of any rule
occurs in either. -/
theorem classify_default_title (name : String) (i : Nat) :
    classify name "" i = classify name "no title" i := by
  have h1 : containsSub "" "pope" = false := rfl
  have h2 : containsSub "no title" "pope" = false := rfl
  have h3 : containsSub "" "vatican" = false := rfl
  have h4 : containsSub "no title" "vatican" = false := rfl
  have h5 : containsSub "" "us" = false := rfl
  have h6 : containsSub "no title" "us" = false := rfl
  have h7 : containsSub "" "faith" = false := rfl
  have h8 : containsSub "no title" "faith" = false := rfl
  have h9 : containsSub "" "life" = false := rfl
  have h10 : containsSub "no title" "life" = false := rfl
  have h11 : containsSub "" "culture" = false := rfl
  have h12 : containsSub "no title" "culture" = false := rfl
  have h13 : containsSub "" "world" = false := rfl
  have h14 : containsSub "no title" "world" = false := rfl
  have h15 : containsSub "" "school" = false := rfl
  have h16 : containsSub "no title" "school" = false := rfl
  have h17 : containsSub "" "education" = false := rfl
  have h18 : containsSub "no title" "education" = false := rfl
  simp only [classify, ruleVatican, ruleAmerica, ruleFaith, ruleCulture,
    ruleWorld, ruleEducation, h1, h2, h3, h4, h5, h6, h7, h8, h9, h10,
    h11, h12, h13, h14, h15, h16, h17, h18, Bool.false_or, Bool.or_false]

/-! ## Claim theorems -/

/-- C1: a fetch/parse failure for a source, or a successful fetch with
zero entries, contributes zero headlines and leaves the whole returned
category set exactly as if that source were absent — so every
subsequent source's headlines still appear. -/
theorem spec_c1 (pre post : List (String × FetchResult)) (name : String)
    (res : FetchResult) (limit : Nat)
    (h : res = FetchResult.failure ∨ res = FetchResult.success []) :
    fetch_headlines (pre ++ (name, res) :: post) limit =
      fetch_headlines (pre ++ post) limit := by
  have hstep : ∀ st : CategorySet, processSource st limit (name, res) = st := by
    intro st
    rcases h with h | h <;> subst h <;> rfl
  have hraw : collectRaw (pre ++ (name, res) :: post) limit =
      collectRaw (pre ++ post) limit := by
    simp only [collectRaw, List.foldl_append, List.foldl_cons, hstep]
  simp only [fetch_headlines, hraw]

/-- Witness for C1: dropping a failing middle source from a concrete
three-source run leaves the result unchanged. -/
theorem spec_c1_witness :
    fetch_headlines
        [("Vatican News", FetchResult.success [⟨some "Pope speaks", some "u1"⟩]),
         ("Crux", FetchResult.failure),
         ("Zenit", FetchResult.success [⟨some "World news today", some "u2"⟩])] 3 =
      fetch_headlines
        [("Vatican News", FetchResult.success [⟨some "Pope speaks", some "u1"⟩]),
         ("Zenit", FetchResult.success [⟨some "World news today", some "u2"⟩])] 3 :=
  spec_c1 [("Vatican News", FetchResult.success [⟨some "Pope speaks", some "u1"⟩])]
    [("Zenit", FetchResult.success [⟨some "World news today", some "u2"⟩])]
    "Crux" FetchResult.failure 3 (Or.inl rfl)

/-- C2: classification is exhaustive and mutually exclusive.  First, the
total number of headlines held across all seven categories after the
source loop equals the number of produced headlines, so each produced
headline is appended to exactly one category.  Second, when none of the
seven rule conditions holds, the chain's `else` arm assigns `faith`. -/
theorem spec_c2 :
    (∀ (sources : List (String × FetchResult)) (limit : Nat),
      totalLen (collectRaw sources limit) = producedCount sources limit) ∧
    (∀ (name tl : String) (i : Nat),
      ruleBreaking name i = false → ruleVatican name tl = false →
      ruleAmerica name tl = false → ruleFaith name tl = false →
      ruleCulture name tl = false → ruleWorld name tl = false →
      ruleEducation name tl = false → classify name tl i = Category.faith) := by
  constructor
  · intro sources limit
    simpa [collectRaw, totalLen, initialCats] using
      totalLen_collect limit sources initialCats
  · intro name tl i h1 h2 h3 h4 h5 h6 h7
    simp [classify, h1, h2, h3, h4, h5, h6, h7]

/-- Witness for C2 at concrete inputs: the count identity on a one-source
run, and the fallback on a title matched by no rule. -/
theorem spec_c2_witness :
    totalLen (collectRaw
        [("Aleteia", FetchResult.success [⟨some "Hello", some "u"⟩])] 3) =
      producedCount
        [("Aleteia", FetchResult.success [⟨some "Hello", some "u"⟩])] 3 ∧
    classify "Aleteia" "hello" 1 = Category.faith :=
  ⟨spec_c2.1 [("Aleteia", FetchResult.success [⟨some "Hello", some "u"⟩])] 3,
   spec_c2.2 "Aleteia" "hello" 1 (by decide) (by decide) (by decide) (by decide)
     (by decide) (by decide) (by decide)⟩

/-- C3: the chain returns `breaking` exactly when the index within the
taken slice is 0 and the source is breaking-eligible; and the entry at
position 1 from "Vatican News" always classifies as `vatican`. -/
theorem spec_c3 :
    (∀ (name tl : String) (i : Nat),
      classify name tl i = Category.breaking ↔
        i = 0 ∧ name ∈ breakingSources) ∧
    (∀ tl : String, classify "Vatican News" tl 1 = Category.vatican) := by
  constructor
  · intro name tl i
    by_cases hb : ruleBreaking name i = true
    · have hmem : i = 0 ∧ name ∈ breakingSources := by
        have h := hb
        simp only [ruleBreaking, Bool.and_eq_true, beq_iff_eq] at h
        exact ⟨h.1, List.elem_iff.mp h.2⟩
      have hcl : classify name tl i = Category.breaking := by simp [classify, hb]
      exact iff_of_true hcl hmem
    · have hb' : ruleBreaking name i = false := by simpa using hb
      constructor
      · intro hcl; exact absurd hcl (classify_ne_breaking hb')
      · rintro ⟨h0, hm⟩
        have htrue : ruleBreaking name i = true := by
          subst h0
          simp [ruleBreaking, List.elem_iff.mpr hm, hm]
        rw [hb'] at htrue
        exact absurd htrue (by simp)
  · intro tl
    simp [classify, ruleBreaking, ruleVatican]

/-- C4: a non-breaking entry whose lowered title contains "pope"
classifies as `vatican` and never as `faith`, whatever its source. -/
theorem spec_c4 (name tl : String) (i : Nat)
    (hp : containsSub tl "pope" = true)
    (hb : ¬(i = 0 ∧ name ∈ breakingSources)) :
    classify name tl i = Category.vatican ∧
      classify name tl i ≠ Category.faith := by
  have hrb : ruleBreaking name i = false := by
    by_cases h0 : i = 0
    · subst h0
      have hm : name ∉ breakingSources := fun hm => hb ⟨rfl, hm⟩
      have hcontains : breakingSources.contains name = false := by
        cases hcc : breakingSources.contains name
        · rfl
        · exact absurd (List.elem_iff.mp hcc) hm
      simp [ruleBreaking, hcontains, hm]
    · have hi : (i == 0) = false := by simpa using h0
      simp [ruleBreaking, hi]
  have hv : ruleVatican name tl = true := by simp [ruleVatican, hp]
  refine ⟨by simp [classify, hrb, hv], by simp [classify, hrb, hv]⟩

/-- Witness for C4: a "pope" title from "Catholic Stand" — a source of
the faith source set — classifies as `vatican`, not `faith`. -/
theorem spec_c4_witness :
    classify "Catholic Stand" "pope visits the parish" 0 = Category.vatican ∧
      classify "Catholic Stand" "pope visits the parish" 0 ≠ Category.faith :=
  spec_c4 "Catholic Stand" "pope visits the parish" 0 (by decide) (by decide)

/-- C5: the returned category set is the collected one with every
category list truncated to its cap — 5 for `breaking`, 15 otherwise —
keeping the front (earliest-inserted) items: each returned list is the
`take` of the collected list at its cap, so its length is the minimum of
the cap and the collected length (20 collected `faith` headlines thus
return exactly the first 15 in insertion order). -/
theorem spec_c5 (sources : List (String × FetchResult)) (limit : Nat)
    (c : Category) :
    catGet (fetch_headlines sources limit) c =
        (catGet (collectRaw sources limit) c).take (cap c) ∧
      (catGet (fetch_headlines sources limit) c).length =
        min (cap c) (catGet (collectRaw sources limit) c).length := by
  cases c <;> simp [fetch_headlines, catGet, cap, List.length_take]

/-- C6: a source whose fetch succeeds with entry list `entries`
contributes exactly `min entries.length limit` headlines, and each
category receives, in order, exactly the headlines of the enumerated
front slice `entries.take limit` that the chain classifies into it — the
slice is used in feed-native order, never re-sorted. -/
theorem spec_c6 (st : CategorySet) (name : String) (entries : List Entry)
    (limit : Nat) :
    totalLen (processSource st limit (name, FetchResult.success entries)) =
        totalLen st + min entries.length limit ∧
      ∀ c : Category,
        catGet (processSource st limit (name, FetchResult.success entries)) c =
          catGet st c ++
            ((enumerate 0 (entries.take limit)).filter
                (fun p => classify name (titleLowerOf p.2) p.1 == c)).map
              (fun p => mkHeadline name p.2) := by
  constructor
  · rw [totalLen_processSource]
    by_cases he : entries.isEmpty
    · have : entries = [] := by simpa [List.isEmpty_iff] using he
      subst this
      simp [perSourceCount]
    · simp [perSourceCount, he]
  · intro c
    by_cases he : entries.isEmpty
    · have : entries = [] := by simpa [List.isEmpty_iff] using he
      subst this
      simp [processSource, enumerate]
    · simp only [processSource, he, Bool.false_eq_true, if_false]
      exact catGet_processEntries name (entries.take limit) st 0 c

/-- C7: an entry with no `title` yields the display title `"No title"`
and is classified exactly as the rules classify the default title text;
an entry with no `link` yields the link `"#"`. -/
theorem spec_c7 (name : String) (i : Nat) (e : Entry) :
    (e.title = none →
      (mkHeadline name e).title = "No title" ∧
        classify name (titleLowerOf e) i =
          classify name (lowerStr "No title") i) ∧
    (e.link = none → (mkHeadline name e).link = "#") := by
  constructor
  · intro ht
    constructor
    · simp only [mkHeadline, ht, Option.getD_none]
      decide
    · have h0 : titleLowerOf e = "" := by
        simp only [titleLowerOf, ht, Option.getD_none]
        decide
      have h1 : lowerStr "No title" = "no title" := by decide
      rw [h0, h1]
      exact classify_default_title name i
  · intro hl
    simp [mkHeadline, hl]

/-- Witness for C7: the entry with both fields absent, processed as
source "EWTN News" at index 0. -/
theorem spec_c7_witness :
    (mkHeadline "EWTN News" ⟨none, none⟩).title = "No title" ∧
      classify "EWTN News" (titleLowerOf ⟨none, none⟩) 0 =
        classify "EWTN News" (lowerStr "No title") 0 ∧
      (mkHeadline "EWTN News" ⟨none, none⟩).link = "#" := by
  obtain ⟨h1, h2⟩ := spec_c7 "EWTN News" 0 ⟨none, none⟩
  exact ⟨(h1 rfl).1, (h1 rfl).2, h2 rfl⟩

/-- C8: the renderer is a pure function — two evaluations on the same
category set and date string are the same string — and for a fixed
category set the output decomposes as a fixed prefix, the date string,
and a suffix depending only on the category set: outputs for two
instants differ only in the embedded date string. -/
theorem spec_c8 :
    (∀ (headlines : CategorySet) (date_string : String),
      generate_html headlines date_string =
        generate_html headlines date_string) ∧
    (∀ (headlines : CategorySet) (date_string : String),
      generate_html headlines date_string =
        tpl0 ++ date_string ++ htmlAfterDate headlines) :=
  ⟨fun _ _ => rfl,
   fun headlines date_string => by
    simp [generate_html, htmlAfterDate, String.append_assoc]⟩

/-- C9: with a per-source limit of 0 every category of the returned set
is the empty list, whatever the fetch results were. -/
theorem spec_c9 (sources : List (String × FetchResult)) (c : Category) :
    catGet (fetch_headlines sources 0) c = [] := by
  have hfold : ∀ (ss : List (String × FetchResult)) (st : CategorySet),
      ss.foldl (fun st s => processSource st 0 s) st = st := by
    intro ss
    induction ss with
    | nil => intro st; rfl
    | cons s ss ih =>
      intro st
      simp only [List.foldl_cons]
      rw [processSource_zero]
      exact ih st
  have hraw : collectRaw sources 0 = initialCats := hfold sources initialCats
  simp only [fetch_headlines, hraw]
  cases c <;> rfl

/-- One source grows the breaking list by at most one entry — and only
when its name is breaking-eligible, since only the slice entry at index 0
can satisfy the breaking rule. -/
theorem breaking_processSource_le (st : CategorySet) (limit : Nat)
    (src : String × FetchResult) :
    (processSource st limit src).breaking.length ≤
      st.breaking.length +
        (if breakingSources.contains src.1 then 1 else 0) := by
  obtain ⟨name, res⟩ := src
  cases res with
  | failure => exact Nat.le_add_right _ _
  | success es =>
    simp only [processSource]
    by_cases he : es.isEmpty
    · simp only [he, if_true]
      exact Nat.le_add_right _ _
    · simp only [he, Bool.false_eq_true, if_false]
      cases htake : es.take limit with
      | nil =>
        exact Nat.le_add_right _ _
      | cons e rest =>
        show (processEntries name (processEntry st name 0 e) 1 rest).breaking.length ≤ _
        rw [processEntries_breaking_of_pos name rest _ 1 one_ne_zero]
        by_cases hbr : classify name (titleLowerOf e) 0 = Category.breaking
        · have hrb : ruleBreaking name 0 = true := by
            by_contra hfalse
            exact classify_ne_breaking (by simpa using hfalse) hbr
          have hc : breakingSources.contains name = true := by
            simpa [ruleBreaking] using hrb
          simp [processEntry, hbr, appendTo, hc, List.elem_iff.mp hc]
        · rw [processEntry, breaking_appendTo_of_ne hbr]
          exact Nat.le_add_right _ _

/-- Folding the source loop grows the breaking list by at most the
number of breaking-eligible source names. -/
theorem collectRaw_breaking_le (limit : Nat) :
    ∀ (sources : List (String × FetchResult)) (st : CategorySet),
      ((sources.foldl (fun st s => processSource st limit s) st)).breaking.length ≤
        st.breaking.length + eligibleCount (sources.map Prod.fst) := by
  intro sources
  induction sources with
  | nil => intro st; simp [eligibleCount]
  | cons s ss ih =>
    intro st
    simp only [List.foldl_cons, List.map_cons]
    refine le_trans (ih (processSource st limit s)) ?_
    have h1 := breaking_processSource_le st limit s
    by_cases hc : breakingSources.contains s.1 = true
    · have hmem : s.1 ∈ breakingSources := List.elem_iff.mp hc
      have h2 : eligibleCount (s.1 :: ss.map Prod.fst) =
          eligibleCount (ss.map Prod.fst) + 1 := by
        simp [eligibleCount, List.filter_cons, hmem]
      rw [h2]
      rw [if_pos hc] at h1
      omega
    · have hmem : s.1 ∉ breakingSources := fun m => hc (List.elem_iff.mpr m)
      have h2 : eligibleCount (s.1 :: ss.map Prod.fst) =
          eligibleCount (ss.map Prod.fst) := by
        simp [eligibleCount, List.filter_cons, hmem]
      rw [h2]
      rw [if_neg hc] at h1
      omega

/-- C10: every source contributes at most one headline to the breaking
list (only the slice entry at position 0 can qualify); and with the
configured source list — which contains exactly three breaking-eligible
names — the collected breaking list has length at most 3 whatever the
fetch results and the per-source limit, so the final truncation to 5
returns the breaking list unchanged: the cap never drops a breaking
headline. -/
theorem spec_c10 :
    (∀ (st : CategorySet) (limit : Nat) (src : String × FetchResult),
      (processSource st limit src).breaking.length ≤
        st.breaking.length + 1) ∧
    (∀ (sources : List (String × FetchResult)) (limit : Nat),
      sources.map Prod.fst = configuredNames →
        (collectRaw sources limit).breaking.length ≤ 3 ∧
          (fetch_headlines sources limit).breaking =
            (collectRaw sources limit).breaking) := by
  constructor
  · intro st limit src
    refine le_trans (breaking_processSource_le st limit src) ?_
    by_cases hc : breakingSources.contains src.1 = true
    · rw [if_pos hc]
    · rw [if_neg hc]
      omega
  · intro sources limit h
    have hbound : (collectRaw sources limit).breaking.length ≤ 3 := by
      have h1 := collectRaw_breaking_le limit sources initialCats
      rw [h] at h1
      have h2 : eligibleCount configuredNames = 3 := by decide
      simpa [initialCats, h2] using h1
    refine ⟨hbound, ?_⟩
    show (collectRaw sources limit).breaking.take 5 = _
    exact List.take_of_length_le (le_trans hbound (by omega))

/-- Witness for C10: one source never adds two breaking headlines on a
concrete two-entry feed, and a run over the full configured source list,
each source fetching one entry, obeys the bound and keeps its breaking
list through truncation. -/
theorem spec_c10_witness :
    (processSource initialCats 3
        ("Vatican News", FetchResult.success
          [⟨some "Pope speaks", some "u1"⟩,
           ⟨some "Vatican synod", some "u2"⟩])).breaking.length ≤
      initialCats.breaking.length + 1 ∧
    ((collectRaw (CATHOLIC_NEWS_SOURCES.map
        (fun p => (p.1, FetchResult.success [⟨some "Mass today", some p.2⟩])))
      3).breaking.length ≤ 3 ∧
      (fetch_headlines (CATHOLIC_NEWS_SOURCES.map
          (fun p => (p.1, FetchResult.success [⟨some "Mass today", some p.2⟩])))
        3).breaking =
        (collectRaw (CATHOLIC_NEWS_SOURCES.map
            (fun p => (p.1, FetchResult.success [⟨some "Mass today", some p.2⟩])))
          3).breaking) :=
  ⟨spec_c10.1 initialCats 3 ("Vatican News", FetchResult.success
      [⟨some "Pope speaks", some "u1"⟩, ⟨some "Vatican synod", some "u2"⟩]),
   spec_c10.2 _ 3 (by decide)⟩
